import Mathlib

/-!
Shallow embedding of the eco-rs analysis pipeline (src-tauri) and proofs about it.

Conventions used throughout this development:
* Rust `f64` values are modelled as `ℚ` (exact arithmetic; every constant in the
  quantile tables is an exact decimal and every operation used by the scorer —
  `+`, `-`, `*`, `/`, `mul_add`, `clamp`, `round` — is exact-rational here).
* Rust `u32`/`u64` counters are modelled as `ℕ`.
* Fallible steps are modelled with `Except`/`Option`.
* External library calls (serde_json parsing, the Tauri event stream, CDP calls)
  are modelled as explicit inputs (oracles), so the control flow of the
  repository's own code stays fully explicit.
-/

namespace EcoRs

/-! ## ScoreCalculator (src-tauri/src/calculator/ecoindex.rs) -/

/-- Page metrics as consumed by `EcoIndexCalculator` (fields `dom_elements: u32`,
`requests: u32`, `size_kb: f64`, the shape used by all calculator call sites). -/
structure PageMetrics where
  dom_elements : ℕ
  requests : ℕ
  size_kb : ℚ
  deriving DecidableEq

/-- The `for i in 1..quantiles.len()` loop of `get_quantile_position`:
`lower` is `quantiles[i-1]`, `rest` holds `quantiles[i..]`, `idx` is the value
`(i-1) as f64`, and `fb` is the post-loop fallback `(quantiles.len()-1) as f64`. -/
def quantileScan (value : ℚ) (lower : ℚ) (rest : List ℚ) (idx fb : ℚ) : ℚ :=
  match rest with
  | [] => fb
  | upper :: rest =>
      if value < upper then idx + (value - lower) / (upper - lower)
      else quantileScan value upper rest (idx + 1) fb

/-- Model of `EcoIndexCalculator::get_quantile_position`.  On `[]` the Rust code
panics on the `quantiles[0]` index; every call site passes a 21-entry table, so
the `[]` branch is unreachable and returns a junk value. -/
def get_quantile_position (value : ℚ) (quantiles : List ℚ) : ℚ :=
  match quantiles with
  | [] => 0
  | q0 :: rest =>
      if value ≤ q0 then 0
      else if (q0 :: rest).getD rest.length 0 ≤ value then (rest.length : ℚ)
      else quantileScan value q0 rest 0 (rest.length : ℚ)

/-- Model of `f64::mul_add` (`a.mul_add(b, c) = a*b + c`, exact on `ℚ`). -/
def mulAdd (a b c : ℚ) : ℚ := a * b + c

/-- Model of Rust `f64::clamp(lo, hi)`. -/
def rustClamp (x lo hi : ℚ) : ℚ :=
  if x < lo then lo else if hi < x then hi else x

/-! Quantile tables (src-tauri/src/domain/quantiles.rs). -/

/-- Quantile distribution for DOM element counts (`DOM_QUANTILES`). -/
def DOM_QUANTILES : List ℚ :=
  [0, 47, 75, 159, 233, 298, 358, 417, 476, 537, 603, 674, 753, 843,
   949, 1076, 1237, 1459, 1801, 2479, 594601]

/-- Quantile distribution for HTTP request counts (`REQUEST_QUANTILES`). -/
def REQUEST_QUANTILES : List ℚ :=
  [0, 2, 15, 25, 34, 42, 49, 56, 63, 70, 78, 86, 95, 105, 117,
   130, 147, 170, 205, 281, 3920]

/-- Quantile distribution for transfer sizes in KB (`SIZE_QUANTILES`). -/
def SIZE_QUANTILES : List ℚ :=
  [0, 137/100, 1447/10, 31953/100, 47946/100, 63197/100, 78338/100, 93791/100,
   109862/100, 126547/100, 144832/100, 164827/100, 187608/100, 214206/100,
   246537/100, 286631/100, 340159/100, 415573/100, 540008/100, 803754/100,
   22321226/100]

/-- Grade thresholds (`GRADE_THRESHOLDS`), `(minimum_score, grade_letter)`. -/
def GRADE_THRESHOLDS : List (ℚ × Char) :=
  [(81, 'A'), (71, 'B'), (61, 'C'), (51, 'D'), (41, 'E'), (31, 'F'), (0, 'G')]

/-- Model of `EcoIndexCalculator::compute_score`. -/
def compute_score (metrics : PageMetrics) : ℚ :=
  let q_dom := get_quantile_position (metrics.dom_elements : ℚ) DOM_QUANTILES
  let q_req := get_quantile_position (metrics.requests : ℚ) REQUEST_QUANTILES
  let q_size := get_quantile_position metrics.size_kb SIZE_QUANTILES
  let weighted := mulAdd 3 q_dom (mulAdd 2 q_req q_size)
  let score := 100 - (5 * weighted) / 6
  rustClamp score 0 100

/-- The `for (threshold, grade) in GRADE_THRESHOLDS` loop of `get_grade`. -/
def gradeScan (score : ℚ) : List (ℚ × Char) → Char
  | [] => 'G'
  | (threshold, grade) :: rest =>
      if threshold ≤ score then grade else gradeScan score rest

/-- Model of `EcoIndexCalculator::get_grade`. -/
def get_grade (score : ℚ) : Char := gradeScan score GRADE_THRESHOLDS

/-- Model of `EcoIndexCalculator::compute_ghg`. -/
def compute_ghg (score : ℚ) : ℚ := 2 + 2 * (100 - score) / 100

/-- Model of `EcoIndexCalculator::compute_water`. -/
def compute_water (score : ℚ) : ℚ := 3 + 3 * (100 - score) / 100

/-- Model of Rust `f64::round` (round half away from zero), on `ℚ`. -/
def rustRound (x : ℚ) : ℚ :=
  if 0 ≤ x then (⌊x + 1/2⌋ : ℚ) else -(⌊-x + 1/2⌋ : ℚ)

/-- The `(x * 100.0).round() / 100.0` two-decimal rounding used by the sidecar
result builder. -/
def round2 (x : ℚ) : ℚ := rustRound (x * 100) / 100

/-! ### Lemmas about the quantile scan -/

lemma quantileScan_hit (value lower upper : ℚ) (rest : List ℚ) (idx fb : ℚ)
    (h : value < upper) :
    quantileScan value lower (upper :: rest) idx fb =
      idx + (value - lower) / (upper - lower) := by
  simp [quantileScan, h]

lemma quantileScan_skip (value lower upper : ℚ) (rest : List ℚ) (idx fb : ℚ)
    (h : ¬ value < upper) :
    quantileScan value lower (upper :: rest) idx fb =
      quantileScan value upper rest (idx + 1) fb := by
  simp [quantileScan, h]

lemma chain_getD_lt (T : List ℚ) (hT : List.Chain' (· < ·) T) {i j : ℕ}
    (hij : i < j) (hj : j < T.length) : T.getD i 0 < T.getD j 0 := by
  have hp : List.Pairwise (· < ·) T := List.chain'_iff_pairwise.1 hT
  have hi : i < T.length := lt_trans hij hj
  rw [List.getD_eq_getElem T 0 hi, List.getD_eq_getElem T 0 hj]
  exact List.pairwise_iff_getElem.1 hp i j hi hj hij

lemma chain_getD_le (T : List ℚ) (hT : List.Chain' (· < ·) T) {i j : ℕ}
    (hij : i ≤ j) (hj : j < T.length) : T.getD i 0 ≤ T.getD j 0 := by
  rcases lt_or_eq_of_le hij with h | h
  · exact le_of_lt (chain_getD_lt T hT h hj)
  · rw [h]

/-- The scan returns the interpolation of the bracketing interval: if index `i`
of `rest` holds the first breakpoint strictly above `value`, the result is
`(idx + i) + (value - prev) / (rest[i] - prev)` with `prev` the breakpoint just
below (`lower` when `i = 0`). -/
lemma quantileScan_bracket (value : ℚ) :
    ∀ (rest : List ℚ) (lower idx fb : ℚ) (i : ℕ),
      i < rest.length →
      (∀ j, j < i → rest.getD j 0 ≤ value) →
      value < rest.getD i 0 →
      quantileScan value lower rest idx fb =
        (idx + i) +
          (value - (if i = 0 then lower else rest.getD (i - 1) 0)) /
            (rest.getD i 0 - (if i = 0 then lower else rest.getD (i - 1) 0)) := by
  intro rest
  induction rest with
  | nil => intro lower idx fb i hi _ _; simp at hi
  | cons upper rest ih =>
    intro lower idx fb i hi hbelow habove
    cases i with
    | zero =>
      simp only [List.getD_cons_zero] at habove
      rw [quantileScan_hit value lower upper rest idx fb habove]
      simp
    | succ k =>
      have hup : upper ≤ value := by simpa using hbelow 0 (Nat.succ_pos k)
      rw [quantileScan_skip value lower upper rest idx fb (not_lt.2 hup)]
      simp only [List.getD_cons_succ] at habove
      have hk : k < rest.length := by simpa using hi
      have hbelow' : ∀ j, j < k → rest.getD j 0 ≤ value := by
        intro j hj
        simpa using hbelow (j + 1) (Nat.succ_lt_succ hj)
      rw [ih upper (idx + 1) fb k hk hbelow' habove]
      cases k with
      | zero => simp
      | succ m =>
        simp only [List.getD_cons_succ, Nat.succ_ne_zero, if_false,
          Nat.succ_sub_one]
        push_cast
        ring_nf

/-- With `fb = idx + rest.length` (the shape of the real call), the scan result
lies in `[idx, idx + rest.length]` whenever the table is strictly ascending and
`lower ≤ value`. -/
lemma quantileScan_bounds (value : ℚ) :
    ∀ (rest : List ℚ) (lower idx : ℚ),
      List.Chain' (· < ·) (lower :: rest) →
      lower ≤ value →
      idx ≤ quantileScan value lower rest idx (idx + rest.length) ∧
        quantileScan value lower rest idx (idx + rest.length) ≤
          idx + rest.length := by
  intro rest
  induction rest with
  | nil => intro lower idx _ _; simp [quantileScan]
  | cons upper rest ih =>
    intro lower idx hchain hlow
    have hlu : lower < upper := (List.chain'_cons.1 hchain).1
    have hchain' : List.Chain' (· < ·) (upper :: rest) :=
      (List.chain'_cons.1 hchain).2
    have hre : idx + (((upper :: rest).length : ℕ) : ℚ) =
        (idx + 1) + (rest.length : ℚ) := by
      push_cast [List.length_cons]
      ring
    by_cases hv : value < upper
    · rw [quantileScan_hit value lower upper rest idx _ hv]
      have hd : (0 : ℚ) < upper - lower := by linarith
      have hfrac0 : 0 ≤ (value - lower) / (upper - lower) :=
        div_nonneg (by linarith) (le_of_lt hd)
      have hfrac1 : (value - lower) / (upper - lower) < 1 :=
        (div_lt_one hd).2 (by linarith)
      have hn : (0 : ℚ) ≤ (rest.length : ℚ) := Nat.cast_nonneg _
      constructor
      · linarith
      · rw [hre]; linarith
    · rw [quantileScan_skip value lower upper rest idx _ hv, hre]
      obtain ⟨h1, h2⟩ := ih upper (idx + 1) hchain' (not_lt.1 hv)
      exact ⟨by linarith, h2⟩

/-- The scan is monotone in the probed value (same table, same index state). -/
lemma quantileScan_mono {v1 v2 : ℚ} (h12 : v1 ≤ v2) :
    ∀ (rest : List ℚ) (lower idx : ℚ),
      List.Chain' (· < ·) (lower :: rest) →
      lower ≤ v1 →
      quantileScan v1 lower rest idx (idx + rest.length) ≤
        quantileScan v2 lower rest idx (idx + rest.length) := by
  intro rest
  induction rest with
  | nil => intro lower idx _ _; simp [quantileScan]
  | cons upper rest ih =>
    intro lower idx hchain hlow
    have hlu : lower < upper := (List.chain'_cons.1 hchain).1
    have hchain' : List.Chain' (· < ·) (upper :: rest) :=
      (List.chain'_cons.1 hchain).2
    have hre : idx + (((upper :: rest).length : ℕ) : ℚ) =
        (idx + 1) + (rest.length : ℚ) := by
      push_cast [List.length_cons]
      ring
    have hd : (0 : ℚ) < upper - lower := by linarith
    by_cases h1 : v1 < upper
    · by_cases h2 : v2 < upper
      · rw [quantileScan_hit v1 lower upper rest idx _ h1,
          quantileScan_hit v2 lower upper rest idx _ h2]
        have hfr : (v1 - lower) / (upper - lower) ≤
            (v2 - lower) / (upper - lower) := by
          rw [div_le_div_iff₀ hd hd]
          nlinarith
        linarith
      · rw [quantileScan_hit v1 lower upper rest idx _ h1,
          quantileScan_skip v2 lower upper rest idx _ h2, hre]
        have hb := quantileScan_bounds v2 rest upper (idx + 1) hchain'
          (not_lt.1 h2)
        have hfrac1 : (v1 - lower) / (upper - lower) < 1 :=
          (div_lt_one hd).2 (by linarith)
        linarith [hb.1]
    · have h2 : ¬ v2 < upper := fun h => h1 (lt_of_le_of_lt h12 h)
      rw [quantileScan_skip v1 lower upper rest idx _ h1,
        quantileScan_skip v2 lower upper rest idx _ h2, hre]
      exact ih upper (idx + 1) hchain' (not_lt.1 h1)

/-! ### Lemmas about `get_quantile_position` on a 21-entry ascending table -/

lemma exists_cons_of_length_21 {T : List ℚ} (hlen : T.length = 21) :
    ∃ t0 rest, T = t0 :: rest ∧ rest.length = 20 := by
  cases T with
  | nil => simp at hlen
  | cons t0 rest => exact ⟨t0, rest, rfl, by simpa using hlen⟩

lemma gqp_low {T : List ℚ} {v : ℚ} (hlen : T.length = 21)
    (hle : v ≤ T.getD 0 0) : get_quantile_position v T = 0 := by
  obtain ⟨t0, rest, rfl, _⟩ := exists_cons_of_length_21 hlen
  simp only [List.getD_cons_zero] at hle
  simp [get_quantile_position, hle]

lemma gqp_high {T : List ℚ} {v : ℚ} (hlen : T.length = 21)
    (hT : List.Chain' (· < ·) T) (hge : T.getD 20 0 ≤ v) :
    get_quantile_position v T = 20 := by
  obtain ⟨t0, rest, rfl, hr⟩ := exists_cons_of_length_21 hlen
  have h0 : (t0 :: rest).getD 0 0 < (t0 :: rest).getD 20 0 :=
    chain_getD_lt _ hT (by omega) (by omega)
  simp only [List.getD_cons_zero] at h0
  have ht0 : ¬ v ≤ t0 := by linarith
  have hlast : (t0 :: rest).getD rest.length 0 ≤ v := by rw [hr]; exact hge
  simp only [get_quantile_position, if_neg ht0, if_pos hlast]
  rw [hr]
  norm_num

lemma gqp_bracket {T : List ℚ} {v : ℚ} (hlen : T.length = 21)
    (hT : List.Chain' (· < ·) T) {i : ℕ} (h1 : 1 ≤ i) (h20 : i ≤ 20)
    (hlo : T.getD (i - 1) 0 ≤ v) (hhi : v < T.getD i 0) :
    get_quantile_position v T =
      ((i : ℚ) - 1) +
        (v - T.getD (i - 1) 0) / (T.getD i 0 - T.getD (i - 1) 0) := by
  obtain ⟨t0, rest, rfl, hr⟩ := exists_cons_of_length_21 hlen
  by_cases hle : v ≤ t0
  · have hi1 : i = 1 := by
      by_contra hne
      have hlt : (t0 :: rest).getD 0 0 < (t0 :: rest).getD (i - 1) 0 :=
        chain_getD_lt _ hT (by omega) (by simp; omega)
      simp only [List.getD_cons_zero] at hlt
      linarith
    subst hi1
    have hv : v = t0 := le_antisymm hle (by simpa using hlo)
    subst hv
    simp [get_quantile_position]
  · push_neg at hle
    have hii : (t0 :: rest).getD i 0 ≤ (t0 :: rest).getD rest.length 0 :=
      chain_getD_le _ hT (by omega) (by simp)
    have hnot20 : ¬ (t0 :: rest).getD rest.length 0 ≤ v := by
      intro hge
      linarith
    simp only [get_quantile_position, if_neg (not_le.2 hle), if_neg hnot20]
    obtain ⟨k, rfl⟩ : ∃ k, i = k + 1 := ⟨i - 1, by omega⟩
    have hk : k < rest.length := by omega
    have hlo' : (t0 :: rest).getD k 0 ≤ v := by simpa using hlo
    have hbelow : ∀ j, j < k → rest.getD j 0 ≤ v := by
      intro j hj
      have hmono : (t0 :: rest).getD (j + 1) 0 ≤ (t0 :: rest).getD k 0 :=
        chain_getD_le _ hT (by omega) (by simp; omega)
      simp only [List.getD_cons_succ] at hmono
      linarith
    have habove : v < rest.getD k 0 := by
      simpa [List.getD_cons_succ] using hhi
    rw [quantileScan_bracket v rest t0 0 (rest.length : ℚ) k hk hbelow habove]
    cases k with
    | zero => simp
    | succ m =>
      simp only [List.getD_cons_succ, Nat.succ_ne_zero, if_false,
        Nat.succ_sub_one]
      push_cast
      ring_nf

lemma gqp_bounds {T : List ℚ} (v : ℚ) (hlen : T.length = 21)
    (hT : List.Chain' (· < ·) T) :
    0 ≤ get_quantile_position v T ∧ get_quantile_position v T ≤ 20 := by
  obtain ⟨t0, rest, rfl, hr⟩ := exists_cons_of_length_21 hlen
  simp only [get_quantile_position]
  by_cases h1 : v ≤ t0
  · simp [h1]
  · simp only [if_neg h1]
    by_cases h2 : (t0 :: rest).getD rest.length 0 ≤ v
    · simp only [if_pos h2]
      rw [hr]
      norm_num
    · simp only [if_neg h2]
      have hb := quantileScan_bounds v rest t0 0 hT (le_of_lt (not_le.1 h1))
      rw [zero_add] at hb
      refine ⟨hb.1, le_trans hb.2 ?_⟩
      rw [hr]
      norm_num

lemma gqp_mono {T : List ℚ} (hlen : T.length = 21)
    (hT : List.Chain' (· < ·) T) {v1 v2 : ℚ} (h12 : v1 ≤ v2) :
    get_quantile_position v1 T ≤ get_quantile_position v2 T := by
  obtain ⟨t0, rest, rfl, hr⟩ := exists_cons_of_length_21 hlen
  by_cases ha : v1 ≤ t0
  · rw [gqp_low (by simpa using hlen) (by simpa using ha)]
    exact (gqp_bounds v2 (by simpa using hlen) hT).1
  · push_neg at ha
    have ha2 : ¬ v2 ≤ t0 := not_le.2 (lt_of_lt_of_le ha h12)
    by_cases hc : (t0 :: rest).getD rest.length 0 ≤ v1
    · have hc2 : (t0 :: rest).getD rest.length 0 ≤ v2 := le_trans hc h12
      simp only [get_quantile_position, if_neg (not_le.2 ha), if_neg ha2,
        if_pos hc, if_pos hc2, le_refl]
    · by_cases hd : (t0 :: rest).getD rest.length 0 ≤ v2
      · have hb := gqp_bounds v1 (T := t0 :: rest) (by simpa using hlen) hT
        have h20 : get_quantile_position v2 (t0 :: rest) = 20 := by
          refine gqp_high (by simpa using hlen) hT ?_
          rw [hr] at hd
          exact hd
        rw [h20]
        exact hb.2
      · simp only [get_quantile_position, if_neg (not_le.2 ha), if_neg ha2,
          if_neg hc, if_neg hd]
        have hm := quantileScan_mono h12 rest t0 0 hT (le_of_lt ha)
        rw [zero_add] at hm
        exact hm

lemma gqp_bracket_unique {T : List ℚ} {v : ℚ} (hT : List.Chain' (· < ·) T)
    (hlen : T.length = 21) {i j : ℕ} (hi1 : 1 ≤ i) (hi20 : i ≤ 20)
    (hj1 : 1 ≤ j) (hj20 : j ≤ 20)
    (hilo : T.getD (i - 1) 0 ≤ v) (hihi : v < T.getD i 0)
    (hjlo : T.getD (j - 1) 0 ≤ v) (hjhi : v < T.getD j 0) : i = j := by
  by_contra hne
  rcases Nat.lt_or_ge i j with h | h
  · have : T.getD i 0 ≤ T.getD (j - 1) 0 :=
      chain_getD_le T hT (by omega) (by omega)
    linarith
  · have hlt : j < i := by omega
    have : T.getD j 0 ≤ T.getD (i - 1) 0 :=
      chain_getD_le T hT (by omega) (by omega)
    linarith

/-! ### Concrete facts about the three quantile tables -/

lemma DOM_QUANTILES_length : DOM_QUANTILES.length = 21 := by
  norm_num [DOM_QUANTILES]

lemma REQUEST_QUANTILES_length : REQUEST_QUANTILES.length = 21 := by
  norm_num [REQUEST_QUANTILES]

lemma SIZE_QUANTILES_length : SIZE_QUANTILES.length = 21 := by
  norm_num [SIZE_QUANTILES]

lemma DOM_QUANTILES_chain : List.Chain' (· < ·) DOM_QUANTILES := by
  norm_num [DOM_QUANTILES, List.chain'_cons]

lemma REQUEST_QUANTILES_chain : List.Chain' (· < ·) REQUEST_QUANTILES := by
  norm_num [REQUEST_QUANTILES, List.chain'_cons]

lemma SIZE_QUANTILES_chain : List.Chain' (· < ·) SIZE_QUANTILES := by
  norm_num [SIZE_QUANTILES, List.chain'_cons]

lemma rustClamp_bounds (x lo hi : ℚ) (h : lo ≤ hi) :
    lo ≤ rustClamp x lo hi ∧ rustClamp x lo hi ≤ hi := by
  unfold rustClamp
  split_ifs with h1 h2 <;> constructor <;> linarith

/-! ## Claim theorems for the calculator -/

/-- C1: for every 21-entry strictly ascending quantile table `T` and every
value `v`, `get_quantile_position` returns 0 when `v ≤ T[0]`, 20 when
`v ≥ T[20]`, and otherwise `(i-1) + (v - T[i-1]) / (T[i] - T[i-1])` for the
unique bracketing index `i ∈ [1,20]` with `T[i-1] ≤ v < T[i]`; the result
always lies in `[0, 20]`. -/
theorem C1_quantile_position_spec (T : List ℚ) (v : ℚ)
    (hlen : T.length = 21) (hT : List.Chain' (· < ·) T) :
    (v ≤ T.getD 0 0 → get_quantile_position v T = 0) ∧
    (T.getD 20 0 ≤ v → get_quantile_position v T = 20) ∧
    (∀ i : ℕ, 1 ≤ i → i ≤ 20 → T.getD (i - 1) 0 ≤ v → v < T.getD i 0 →
      get_quantile_position v T =
        ((i : ℚ) - 1) +
          (v - T.getD (i - 1) 0) / (T.getD i 0 - T.getD (i - 1) 0)) ∧
    (∀ i j : ℕ, 1 ≤ i → i ≤ 20 → 1 ≤ j → j ≤ 20 →
      T.getD (i - 1) 0 ≤ v → v < T.getD i 0 →
      T.getD (j - 1) 0 ≤ v → v < T.getD j 0 → i = j) ∧
    (0 ≤ get_quantile_position v T ∧ get_quantile_position v T ≤ 20) :=
  ⟨fun h => gqp_low hlen h,
   fun h => gqp_high hlen hT h,
   fun _ h1 h2 h3 h4 => gqp_bracket hlen hT h1 h2 h3 h4,
   fun _ _ hi1 hi2 hj1 hj2 ha hb hc hd =>
     gqp_bracket_unique hT hlen hi1 hi2 hj1 hj2 ha hb hc hd,
   gqp_bounds v hlen hT⟩

/-- Witness for C1: the DOM table brackets `v = 61` at `i = 2`, giving the
interpolated position, and the result is inside `[0, 20]`. -/
theorem C1_quantile_position_spec_witness :
    (get_quantile_position 61 DOM_QUANTILES =
      ((2 : ℕ) : ℚ) - 1 +
        (61 - DOM_QUANTILES.getD 1 0) /
          (DOM_QUANTILES.getD 2 0 - DOM_QUANTILES.getD 1 0)) ∧
    0 ≤ get_quantile_position 61 DOM_QUANTILES ∧
      get_quantile_position 61 DOM_QUANTILES ≤ 20 :=
  ⟨(C1_quantile_position_spec DOM_QUANTILES 61 DOM_QUANTILES_length
      DOM_QUANTILES_chain).2.2.1 2 (by norm_num) (by norm_num)
      (by norm_num [DOM_QUANTILES]) (by norm_num [DOM_QUANTILES]),
   (C1_quantile_position_spec DOM_QUANTILES 61 DOM_QUANTILES_length
      DOM_QUANTILES_chain).2.2.2.2⟩

/-- C2: `compute_score` equals the clamped weighted quantile formula
`clamp(100 - 5*(3*qDom + 2*qReq + qSize)/6, 0, 100)` and always lies in
`[0, 100]`. -/
theorem C2_compute_score_spec (metrics : PageMetrics) :
    compute_score metrics =
      rustClamp
        (100 - 5 *
          (3 * get_quantile_position (metrics.dom_elements : ℚ) DOM_QUANTILES +
           2 * get_quantile_position (metrics.requests : ℚ) REQUEST_QUANTILES +
           get_quantile_position metrics.size_kb SIZE_QUANTILES) / 6) 0 100 ∧
    0 ≤ compute_score metrics ∧ compute_score metrics ≤ 100 := by
  have hform : compute_score metrics =
      rustClamp
        (100 - 5 *
          (3 * get_quantile_position (metrics.dom_elements : ℚ) DOM_QUANTILES +
           2 * get_quantile_position (metrics.requests : ℚ) REQUEST_QUANTILES +
           get_quantile_position metrics.size_kb SIZE_QUANTILES) / 6) 0 100 := by
    simp only [compute_score, mulAdd]
    congr 1
    ring
  have hb := rustClamp_bounds
    (100 - 5 *
      (3 * get_quantile_position (metrics.dom_elements : ℚ) DOM_QUANTILES +
       2 * get_quantile_position (metrics.requests : ℚ) REQUEST_QUANTILES +
       get_quantile_position metrics.size_kb SIZE_QUANTILES) / 6) 0 100
    (by norm_num)
  exact ⟨hform, by rw [hform]; exact hb.1, by rw [hform]; exact hb.2⟩

/-- C3: `get_grade` returns the grade of the first entry of
`GRADE_THRESHOLDS` (scanned in descending-threshold order) whose threshold is
`≤ score`, and the exact grade boundary table holds. -/
theorem C3_get_grade_spec :
    (∀ (s : ℚ) (i : ℕ), i < GRADE_THRESHOLDS.length →
        (GRADE_THRESHOLDS.getD i (0, 'G')).1 ≤ s →
        (∀ j, j < i → s < (GRADE_THRESHOLDS.getD j (0, 'G')).1) →
        get_grade s = (GRADE_THRESHOLDS.getD i (0, 'G')).2) ∧
    (get_grade 100 = 'A' ∧ get_grade 81 = 'A' ∧ get_grade 80 = 'B' ∧
     get_grade 71 = 'B' ∧ get_grade 70 = 'C' ∧ get_grade 61 = 'C' ∧
     get_grade 60 = 'D' ∧ get_grade 51 = 'D' ∧ get_grade 50 = 'E' ∧
     get_grade 41 = 'E' ∧ get_grade 40 = 'F' ∧ get_grade 31 = 'F' ∧
     get_grade 30 = 'G' ∧ get_grade 0 = 'G') := by
  constructor
  · intro s i hi hle hgt
    have hlen : GRADE_THRESHOLDS.length = 7 := by norm_num [GRADE_THRESHOLDS]
    rw [hlen] at hi
    interval_cases i
    · have hl : (81 : ℚ) ≤ s := by simpa [GRADE_THRESHOLDS] using hle
      simp [get_grade, gradeScan, GRADE_THRESHOLDS, hl]
    · have h0 : s < 81 := by simpa [GRADE_THRESHOLDS] using hgt 0 (by norm_num)
      have hl : (71 : ℚ) ≤ s := by simpa [GRADE_THRESHOLDS] using hle
      simp [get_grade, gradeScan, GRADE_THRESHOLDS, not_le.2 h0, hl]
    · have h0 : s < 81 := by simpa [GRADE_THRESHOLDS] using hgt 0 (by norm_num)
      have h1 : s < 71 := by simpa [GRADE_THRESHOLDS] using hgt 1 (by norm_num)
      have hl : (61 : ℚ) ≤ s := by simpa [GRADE_THRESHOLDS] using hle
      simp [get_grade, gradeScan, GRADE_THRESHOLDS, not_le.2 h0, not_le.2 h1,
        hl]
    · have h0 : s < 81 := by simpa [GRADE_THRESHOLDS] using hgt 0 (by norm_num)
      have h1 : s < 71 := by simpa [GRADE_THRESHOLDS] using hgt 1 (by norm_num)
      have h2 : s < 61 := by simpa [GRADE_THRESHOLDS] using hgt 2 (by norm_num)
      have hl : (51 : ℚ) ≤ s := by simpa [GRADE_THRESHOLDS] using hle
      simp [get_grade, gradeScan, GRADE_THRESHOLDS, not_le.2 h0, not_le.2 h1,
        not_le.2 h2, hl]
    · have h0 : s < 81 := by simpa [GRADE_THRESHOLDS] using hgt 0 (by norm_num)
      have h1 : s < 71 := by simpa [GRADE_THRESHOLDS] using hgt 1 (by norm_num)
      have h2 : s < 61 := by simpa [GRADE_THRESHOLDS] using hgt 2 (by norm_num)
      have h3 : s < 51 := by simpa [GRADE_THRESHOLDS] using hgt 3 (by norm_num)
      have hl : (41 : ℚ) ≤ s := by simpa [GRADE_THRESHOLDS] using hle
      simp [get_grade, gradeScan, GRADE_THRESHOLDS, not_le.2 h0, not_le.2 h1,
        not_le.2 h2, not_le.2 h3, hl]
    · have h0 : s < 81 := by simpa [GRADE_THRESHOLDS] using hgt 0 (by norm_num)
      have h1 : s < 71 := by simpa [GRADE_THRESHOLDS] using hgt 1 (by norm_num)
      have h2 : s < 61 := by simpa [GRADE_THRESHOLDS] using hgt 2 (by norm_num)
      have h3 : s < 51 := by simpa [GRADE_THRESHOLDS] using hgt 3 (by norm_num)
      have h4 : s < 41 := by simpa [GRADE_THRESHOLDS] using hgt 4 (by norm_num)
      have hl : (31 : ℚ) ≤ s := by simpa [GRADE_THRESHOLDS] using hle
      simp [get_grade, gradeScan, GRADE_THRESHOLDS, not_le.2 h0, not_le.2 h1,
        not_le.2 h2, not_le.2 h3, not_le.2 h4, hl]
    · have h0 : s < 81 := by simpa [GRADE_THRESHOLDS] using hgt 0 (by norm_num)
      have h1 : s < 71 := by simpa [GRADE_THRESHOLDS] using hgt 1 (by norm_num)
      have h2 : s < 61 := by simpa [GRADE_THRESHOLDS] using hgt 2 (by norm_num)
      have h3 : s < 51 := by simpa [GRADE_THRESHOLDS] using hgt 3 (by norm_num)
      have h4 : s < 41 := by simpa [GRADE_THRESHOLDS] using hgt 4 (by norm_num)
      have h5 : s < 31 := by simpa [GRADE_THRESHOLDS] using hgt 5 (by norm_num)
      have hl : (0 : ℚ) ≤ s := by simpa [GRADE_THRESHOLDS] using hle
      simp [get_grade, gradeScan, GRADE_THRESHOLDS, not_le.2 h0, not_le.2 h1,
        not_le.2 h2, not_le.2 h3, not_le.2 h4, not_le.2 h5, hl]
  · refine ⟨?_, ?_, ?_, ?_, ?_, ?_, ?_, ?_, ?_, ?_, ?_, ?_, ?_, ?_⟩ <;>
      norm_num [get_grade, gradeScan, GRADE_THRESHOLDS]

/-- Witness for C3: grade `B` is returned at score 75, the first entry with a
threshold at or below 75 being entry 1 (threshold 71). -/
theorem C3_get_grade_spec_witness :
    get_grade 75 = (GRADE_THRESHOLDS.getD 1 (0, 'G')).2 :=
  C3_get_grade_spec.1 75 1 (by norm_num [GRADE_THRESHOLDS])
    (by norm_num [GRADE_THRESHOLDS])
    (by intro j hj; interval_cases j; norm_num [GRADE_THRESHOLDS])

/-- C9: for a fixed 21-entry strictly ascending table, the quantile position
is monotonically non-decreasing in the value, and for a value strictly
between two adjacent breakpoints the result is strictly between their
indices. -/
theorem C9_quantile_position_monotone (T : List ℚ)
    (hlen : T.length = 21) (hT : List.Chain' (· < ·) T) :
    (∀ v1 v2 : ℚ, v1 ≤ v2 →
      get_quantile_position v1 T ≤ get_quantile_position v2 T) ∧
    (∀ (i : ℕ) (v : ℚ), 1 ≤ i → i ≤ 20 →
      T.getD (i - 1) 0 < v → v < T.getD i 0 →
      ((i : ℚ) - 1) < get_quantile_position v T ∧
        get_quantile_position v T < (i : ℚ)) := by
  constructor
  · exact fun v1 v2 h => gqp_mono hlen hT h
  · intro i v h1 h20 hlo hhi
    have hb := gqp_bracket hlen hT h1 h20 (le_of_lt hlo) hhi
    have hd : (0 : ℚ) < T.getD i 0 - T.getD (i - 1) 0 := by
      have := chain_getD_lt T hT (i := i - 1) (j := i) (by omega) (by omega)
      linarith
    rw [hb]
    have hfrac0 : 0 < (v - T.getD (i - 1) 0) / (T.getD i 0 - T.getD (i - 1) 0) :=
      div_pos (by linarith) hd
    have hfrac1 : (v - T.getD (i - 1) 0) / (T.getD i 0 - T.getD (i - 1) 0) < 1 :=
      (div_lt_one hd).2 (by linarith)
    constructor <;> linarith

/-- Witness for C9: on the DOM table, `47 ≤ 61 ≤ 75` is respected
monotonically, and `61` strictly between breakpoints 1 and 2 lands strictly
between positions 1 and 2. -/
theorem C9_quantile_position_monotone_witness :
    (get_quantile_position 47 DOM_QUANTILES ≤
      get_quantile_position 61 DOM_QUANTILES) ∧
    (((2 : ℕ) : ℚ) - 1 < get_quantile_position 61 DOM_QUANTILES ∧
      get_quantile_position 61 DOM_QUANTILES < ((2 : ℕ) : ℚ)) :=
  ⟨(C9_quantile_position_monotone DOM_QUANTILES DOM_QUANTILES_length
      DOM_QUANTILES_chain).1 47 61 (by norm_num),
   (C9_quantile_position_monotone DOM_QUANTILES DOM_QUANTILES_length
      DOM_QUANTILES_chain).2 2 61 (by norm_num) (by norm_num)
      (by norm_num [DOM_QUANTILES]) (by norm_num [DOM_QUANTILES])⟩

/-! ## JSON extraction (src-tauri/src/sidecar/lighthouse.rs, `extract_json`)

The scanner walks the characters after the first opening brace, tracking
`in_string`, `escape_next` and the brace `depth` exactly as the source does.
Rust slices `&str` at char boundaries, so the returned byte slice is the
consumed char prefix. -/

/-- The `for (i, c) in output[start..].char_indices()` loop of `extract_json`.
`acc` holds the consumed characters in reverse; the slice
`&output[start..=start + i]` is `(c :: acc).reverse`.  `escape_next` can only
be `true` right after an unescaped backslash inside a string, which is why the
non-backslash branches pass `false` onward. -/
def extractJsonLoop : List Char → Bool → Bool → ℤ → List Char →
    Option (List Char)
  | [], _, _, _, _ => none
  | c :: cs, inString, escapeNext, depth, acc =>
    if escapeNext then
      extractJsonLoop cs inString false depth (c :: acc)
    else if c = '\\' && inString then
      extractJsonLoop cs inString true depth (c :: acc)
    else if c = '"' then
      extractJsonLoop cs (!inString) false depth (c :: acc)
    else if c = '\x7b' && !inString then
      extractJsonLoop cs inString false (depth + 1) (c :: acc)
    else if c = '\x7d' && !inString then
      if depth - 1 = 0 then some (c :: acc).reverse
      else extractJsonLoop cs inString false (depth - 1) (c :: acc)
    else
      extractJsonLoop cs inString false depth (c :: acc)

/-- Model of `output.find('{')?` followed by taking `output[start..]`: the
suffix starting at the first opening brace, or `none` when there is none. -/
def findBraceSuffix : List Char → Option (List Char)
  | [] => none
  | c :: cs => if c = '\x7b' then some (c :: cs) else findBraceSuffix cs

/-- Model of `extract_json`: the first top-level balanced brace-delimited
slice of `output`, or `none`. -/
def extract_json (output : String) : Option String :=
  match findBraceSuffix output.data with
  | none => none
  | some suffix =>
    match extractJsonLoop suffix false false 0 [] with
    | none => none
    | some cs => some (String.mk cs)

/-! ## Sidecar data model (src-tauri/src/sidecar/lighthouse.rs) -/

/-- Raw metrics from the sidecar (`RawMetrics`). -/
structure RawMetrics where
  dom_elements : ℕ
  requests : ℕ
  total_transfer_size : ℕ
  deriving DecidableEq

/-- Lighthouse sub-scores from the sidecar (`LighthouseScores`). -/
structure LighthouseScores where
  performance : ℕ
  accessibility : ℕ
  best_practices : ℕ
  seo : ℕ
  fcp : ℚ
  lcp : ℚ
  tbt : ℚ
  cls : ℚ
  si : ℚ
  tti : ℚ
  deriving DecidableEq

/-- Resource breakdown by type (`ResourceBreakdown`). -/
structure ResourceBreakdown where
  scripts : ℕ
  stylesheets : ℕ
  images : ℕ
  fonts : ℕ
  xhr : ℕ
  other : ℕ
  deriving DecidableEq

/-- Accessibility issue details (`AccessibilityIssue`). -/
structure AccessibilityIssue where
  id : String
  title : String
  impact : String
  deriving DecidableEq

/-- Cache analysis item (`CacheItem`). -/
structure CacheItem where
  url : String
  cache_lifetime_ms : ℕ
  cache_hit_probability : ℚ
  total_bytes : ℕ
  wasted_bytes : ℚ
  deriving DecidableEq

/-- Detailed information about a single HTTP request (`RequestDetail`). -/
structure RequestDetail where
  url : String
  domain : String
  protocol : String
  status_code : ℕ
  mime_type : String
  resource_type : String
  transfer_size : ℕ
  resource_size : ℕ
  priority : String
  start_time : ℚ
  end_time : ℚ
  duration : ℚ
  from_cache : Bool
  cache_lifetime_ms : ℕ
  deriving DecidableEq

/-- TTFB metrics (`TtfbMetrics`). -/
structure TtfbMetrics where
  ttfb : ℚ
  display_value : String
  deriving DecidableEq

/-- Coverage item (`CoverageItem`). -/
structure CoverageItem where
  url : String
  total_bytes : ℚ
  wasted_bytes : ℚ
  wasted_percent : ℚ
  deriving DecidableEq

/-- Unused code statistics (`UnusedCodeStats`). -/
structure UnusedCodeStats where
  wasted_bytes : ℚ
  wasted_percentage : ℚ
  items : List CoverageItem
  deriving DecidableEq

/-- Coverage analytics (`CoverageAnalytics`). -/
structure CoverageAnalytics where
  unused_js : UnusedCodeStats
  unused_css : UnusedCodeStats
  deriving DecidableEq

/-- Compression opportunity item (`CompressionItem`). -/
structure CompressionItem where
  url : String
  total_bytes : ℚ
  wasted_bytes : ℚ
  deriving DecidableEq

/-- Compression analytics (`CompressionAnalytics`). -/
structure CompressionAnalytics where
  potential_savings : ℚ
  items : List CompressionItem
  score : ℕ
  deriving DecidableEq

/-- Image format opportunity item (`ImageFormatItem`). -/
structure ImageFormatItem where
  url : String
  from_format : String
  total_bytes : ℚ
  wasted_bytes : ℚ
  deriving DecidableEq

/-- Image format analytics (`ImageFormatAnalytics`). -/
structure ImageFormatAnalytics where
  potential_savings : ℚ
  items : List ImageFormatItem
  score : ℕ
  deriving DecidableEq

/-- Raw sidecar output, success case (`RawSidecarSuccess`).  Note: it carries
no score field of any kind — the tool reports only raw counters and its own
audit sub-scores. -/
structure RawSidecarSuccess where
  url : String
  raw_metrics : RawMetrics
  resource_breakdown : ResourceBreakdown
  requests : List RequestDetail
  cache_analysis : List CacheItem
  lighthouse : LighthouseScores
  accessibility_issues : List AccessibilityIssue
  html_report_path : Option String
  ttfb : Option TtfbMetrics
  coverage : Option CoverageAnalytics
  compression : Option CompressionAnalytics
  image_formats : Option ImageFormatAnalytics
  deriving DecidableEq

/-- EcoIndex block of the final result (`EcoIndexMetrics`). -/
structure EcoIndexMetrics where
  score : ℚ
  grade : String
  ghg : ℚ
  water : ℚ
  dom_elements : ℕ
  requests : ℕ
  size_kb : ℚ
  resource_breakdown : ResourceBreakdown
  deriving DecidableEq

/-- Performance block of the final result (`PerformanceMetrics`). -/
structure PerformanceMetrics where
  performance_score : ℕ
  first_contentful_paint : ℚ
  largest_contentful_paint : ℚ
  total_blocking_time : ℚ
  cumulative_layout_shift : ℚ
  speed_index : ℚ
  time_to_interactive : ℚ
  deriving DecidableEq

/-- Accessibility block of the final result (`AccessibilityMetrics`). -/
structure AccessibilityMetrics where
  accessibility_score : ℕ
  issues : List AccessibilityIssue
  deriving DecidableEq

/-- Best-practices block (`BestPracticesMetrics`). -/
structure BestPracticesMetrics where
  best_practices_score : ℕ
  deriving DecidableEq

/-- SEO block (`SeoMetrics`). -/
structure SeoMetrics where
  seo_score : ℕ
  deriving DecidableEq

/-- Pre-computed request analytics (`RequestAnalytics`, src/analytics).  Its
aggregations (domain, cache, protocol, duplicate groupings) are outside the
core pipeline and inspected by no claim; the model records only the request
list it was computed from. -/
structure RequestAnalytics where
  computed_from : List RequestDetail
  deriving DecidableEq

/-- Model of `RequestAnalytics::compute`. -/
def RequestAnalytics.compute (requests : List RequestDetail) :
    RequestAnalytics :=
  ⟨requests⟩

/-- Final result of a Lighthouse analysis (`LighthouseResult`). -/
structure LighthouseResult where
  url : String
  timestamp : String
  ecoindex : EcoIndexMetrics
  performance : PerformanceMetrics
  accessibility : AccessibilityMetrics
  best_practices : BestPracticesMetrics
  seo : SeoMetrics
  requests : List RequestDetail
  cache_analysis : List CacheItem
  html_report_path : Option String
  analytics : Option RequestAnalytics
  ttfb : Option TtfbMetrics
  coverage : Option CoverageAnalytics
  compression : Option CompressionAnalytics
  image_formats : Option ImageFormatAnalytics
  deriving DecidableEq

/-- Error payload embedded in sidecar output (`SidecarErrorResponse`). -/
structure SidecarErrorResponse where
  error : Bool
  code : String
  message : String
  details : Option String
  deriving DecidableEq

/-- Untagged sidecar output (`SidecarOutput`): success or embedded error. -/
inductive SidecarOutput where
  | Success (raw : RawSidecarSuccess)
  | Error (response : SidecarErrorResponse)
  deriving DecidableEq

/-- Sidecar error taxonomy (src-tauri/src/errors/sidecar.rs). -/
inductive SidecarError where
  | BinaryNotFound (msg : String)
  | SpawnFailed (msg : String)
  | ProcessFailed (code : ℤ) (stderr : String)
  | Timeout (ms : ℕ)
  | ParseError (msg : String)
  | CommunicationError (msg : String)
  | AnalysisFailed (code : String) (message : String)
  deriving DecidableEq

/-- Events of the spawned child's stream (`tauri_plugin_shell`'s
`CommandEvent`).  Byte chunks are modelled as UTF-8 strings, under which the
`String::from_utf8_lossy` of the accumulated buffer is the identity. -/
inductive CommandEvent where
  | Stdout (data : String)
  | Stderr (data : String)
  | Terminated (code : Option ℤ)
  | Other
  deriving DecidableEq

/-- The `while let Some(event) = rx.recv().await` loop: accumulate stdout and
stderr chunks and stop at the first `Terminated`, recording its code. -/
def collectEvents : List CommandEvent → String → String →
    String × String × Option ℤ
  | [], out, err => (out, err, none)
  | .Stdout d :: rest, out, err => collectEvents rest (out ++ d) err
  | .Stderr d :: rest, out, err => collectEvents rest out (err ++ d)
  | .Terminated code :: _, out, err => (out, err, code)
  | .Other :: rest, out, err => collectEvents rest out err

/-- Oracle for the external `serde_json::from_str` calls: `none` models a
parse `Err`, `some` a parse `Ok`. -/
structure SerdeJson where
  error_response_from_str : String → Option SidecarErrorResponse
  sidecar_output_from_str : String → Option SidecarOutput

/-- The success path's bytes-to-kilobytes conversion:
`raw.raw_metrics.total_transfer_size as f64 / 1000.0`. -/
def sidecar_size_kb (total_transfer_size : ℕ) : ℚ :=
  (total_transfer_size : ℚ) / 1000

/-- Model of `run_lighthouse_analysis` from the point where the child process
has been spawned (the earlier steps — script resolution and spawn — return
before the PID is ever stored and involve no claim).  Inputs: the serde
oracle, the `chrono::Utc::now().to_rfc3339()` timestamp, the child PID, and
the ordered event stream.  Output: the function result paired with the final
contents of the `AnalysisState.current_pid` slot. -/
def run_lighthouse_analysis (serde : SerdeJson) (now : String) (pid : ℕ)
    (events : List CommandEvent) :
    Except SidecarError LighthouseResult × Option ℕ :=
  -- Store PID in state for cleanup on app exit
  let _slot_running : Option ℕ := some pid
  -- Collect output from the spawned process
  let acc := collectEvents events "" ""
  let stdout_data := acc.1
  let stderr_data := acc.2.1
  let exit_code := acc.2.2
  -- Clear PID from state (process has finished) — unconditionally, before
  -- any of the remaining checks can return early
  let slot_cleared : Option ℕ := none
  let result : Except SidecarError LighthouseResult :=
    if exit_code ≠ some 0 then
      match serde.error_response_from_str stdout_data with
      | some error_response =>
          .error (.AnalysisFailed error_response.code error_response.message)
      | none =>
          .error (.ProcessFailed (exit_code.getD (-1))
            ("stderr: " ++ stderr_data ++ ", stdout: " ++ stdout_data))
    else
      match extract_json stdout_data with
      | none =>
          .error (.ParseError ("No valid JSON found in output: " ++
            stdout_data))
      | some json_str =>
        match serde.sidecar_output_from_str json_str with
        | none =>
            -- the serde error text itself comes from the external library
            .error (.ParseError ("JSON parse error, json: " ++ json_str))
        | some (.Success raw) =>
          let size_kb := sidecar_size_kb raw.raw_metrics.total_transfer_size
          let metrics : PageMetrics :=
            ⟨raw.raw_metrics.dom_elements, raw.raw_metrics.requests, size_kb⟩
          let score := compute_score metrics
          let grade := get_grade score
          let ghg := compute_ghg score
          let water := compute_water score
          .ok
            { url := raw.url
              timestamp := now
              ecoindex :=
                { score := round2 score
                  grade := toString grade
                  ghg := round2 ghg
                  water := round2 water
                  dom_elements := raw.raw_metrics.dom_elements
                  requests := raw.raw_metrics.requests
                  size_kb := round2 size_kb
                  resource_breakdown := raw.resource_breakdown }
              performance :=
                { performance_score := raw.lighthouse.performance
                  first_contentful_paint := raw.lighthouse.fcp
                  largest_contentful_paint := raw.lighthouse.lcp
                  total_blocking_time := raw.lighthouse.tbt
                  cumulative_layout_shift := raw.lighthouse.cls
                  speed_index := raw.lighthouse.si
                  time_to_interactive := raw.lighthouse.tti }
              accessibility :=
                { accessibility_score := raw.lighthouse.accessibility
                  issues := raw.accessibility_issues }
              best_practices :=
                { best_practices_score := raw.lighthouse.best_practices }
              seo := { seo_score := raw.lighthouse.seo }
              requests := raw.requests
              cache_analysis := raw.cache_analysis
              html_report_path := raw.html_report_path
              analytics :=
                if raw.requests.isEmpty then none
                else some (RequestAnalytics.compute raw.requests)
              ttfb := raw.ttfb
              coverage := raw.coverage
              compression := raw.compression
              image_formats := raw.image_formats }
        | some (.Error error_response) =>
            .error (.AnalysisFailed error_response.code error_response.message)
  (result, slot_cleared)

/-! ## Claim theorems for the sidecar orchestrator -/

/-- C4: `extract_json` returns the first top-level balanced brace-delimited
object — on the noisy input of the spec it returns exactly the embedded
object, braces inside strings not affecting depth — and when it returns
`none` on the success path, `run_lighthouse_analysis` surfaces `ParseError`. -/
theorem C4_extract_json_spec :
    (extract_json "noise \x7b\"a\":1,\"b\":\"\x7d\x7b\"\x7d more noise" =
      some "\x7b\"a\":1,\"b\":\"\x7d\x7b\"\x7d") ∧
    (∀ (serde : SerdeJson) (now : String) (pid : ℕ)
        (events : List CommandEvent),
      (collectEvents events "" "").2.2 = some 0 →
      extract_json (collectEvents events "" "").1 = none →
      (run_lighthouse_analysis serde now pid events).1 =
        .error (.ParseError ("No valid JSON found in output: " ++
          (collectEvents events "" "").1))) := by
  constructor
  · decide
  · intro serde now pid events hcode hnone
    simp only [run_lighthouse_analysis, hcode, hnone]
    simp

/-- Witness for C4: a stream with only diagnostic text and exit code 0 yields
`ParseError` carrying the stdout snapshot. -/
theorem C4_extract_json_spec_witness :
    (run_lighthouse_analysis ⟨fun _ => none, fun _ => none⟩ "t" 1
        [.Stdout "diagnostic logs only", .Terminated (some 0)]).1 =
      .error (.ParseError "No valid JSON found in output: diagnostic logs only") :=
  C4_extract_json_spec.2 ⟨fun _ => none, fun _ => none⟩ "t" 1
    [.Stdout "diagnostic logs only", .Terminated (some 0)]
    (by decide) (by decide)

/-- C5: on the success path (exit code 0, extracted JSON parsing as the
success shape), the returned `ecoindex` block is computed locally by the
calculator from the payload's raw metrics — transfer size divided by 1000,
not 1024 — with score, ghg and water rounded to two decimals.  The raw
payload has no score field it could be copied from (`RawSidecarSuccess`). -/
theorem C5_success_scores_computed_locally (serde : SerdeJson) (now : String)
    (pid : ℕ) (events : List CommandEvent) (raw : RawSidecarSuccess)
    (json_str : String)
    (hcode : (collectEvents events "" "").2.2 = some 0)
    (hextract : extract_json (collectEvents events "" "").1 = some json_str)
    (hparse : serde.sidecar_output_from_str json_str = some (.Success raw)) :
    ∃ r : LighthouseResult,
      (run_lighthouse_analysis serde now pid events).1 = .ok r ∧
      r.ecoindex.score = round2 (compute_score
        ⟨raw.raw_metrics.dom_elements, raw.raw_metrics.requests,
          sidecar_size_kb raw.raw_metrics.total_transfer_size⟩) ∧
      r.ecoindex.grade = toString (get_grade (compute_score
        ⟨raw.raw_metrics.dom_elements, raw.raw_metrics.requests,
          sidecar_size_kb raw.raw_metrics.total_transfer_size⟩)) ∧
      r.ecoindex.ghg = round2 (compute_ghg (compute_score
        ⟨raw.raw_metrics.dom_elements, raw.raw_metrics.requests,
          sidecar_size_kb raw.raw_metrics.total_transfer_size⟩)) ∧
      r.ecoindex.water = round2 (compute_water (compute_score
        ⟨raw.raw_metrics.dom_elements, raw.raw_metrics.requests,
          sidecar_size_kb raw.raw_metrics.total_transfer_size⟩)) ∧
      r.ecoindex.size_kb =
        round2 (sidecar_size_kb raw.raw_metrics.total_transfer_size) ∧
      r.ecoindex.dom_elements = raw.raw_metrics.dom_elements ∧
      r.ecoindex.requests = raw.raw_metrics.requests ∧
      sidecar_size_kb raw.raw_metrics.total_transfer_size =
        (raw.raw_metrics.total_transfer_size : ℚ) / 1000 := by
  simp only [run_lighthouse_analysis, hcode, hextract, hparse]
  simp only [ne_eq, not_true_eq_false, if_false, reduceIte]
  exact ⟨_, rfl, rfl, rfl, rfl, rfl, rfl, rfl, rfl, rfl⟩

/-- Sample successful payload used by concrete sidecar runs. -/
def sampleRaw : RawSidecarSuccess where
  url := "https://example.com"
  raw_metrics := ⟨500, 50, 1000000⟩
  resource_breakdown := ⟨1, 1, 1, 1, 1, 1⟩
  requests := []
  cache_analysis := []
  lighthouse := ⟨90, 95, 100, 100, 1, 2, 3, 0, 4, 5⟩
  accessibility_issues := []
  html_report_path := none
  ttfb := none
  coverage := none
  compression := none
  image_formats := none

/-- Serde oracle used by concrete sidecar runs: parses the exact payload
`"\x7b\x7d"` as `sampleRaw` and an `"ERR"` stdout as an embedded error. -/
def sampleSerde : SerdeJson where
  error_response_from_str := fun s =>
    if s = "ERR" then some ⟨true, "E_ANALYSIS", "boom", none⟩ else none
  sidecar_output_from_str := fun s =>
    if s = "\x7b\x7d" then some (.Success sampleRaw)
    else if s = "\x7bERR\x7d" then
      some (.Error ⟨true, "E_EMBEDDED", "embedded failure", none⟩)
    else none

/-- Witness for C5: a concrete successful run whose ecoindex block is the
locally computed one. -/
theorem C5_success_scores_computed_locally_witness :
    ∃ r : LighthouseResult,
      (run_lighthouse_analysis sampleSerde "now" 7
          [.Stdout "\x7b\x7d", .Terminated (some 0)]).1 = .ok r ∧
      r.ecoindex.score = round2 (compute_score
        ⟨sampleRaw.raw_metrics.dom_elements, sampleRaw.raw_metrics.requests,
          sidecar_size_kb sampleRaw.raw_metrics.total_transfer_size⟩) ∧
      r.ecoindex.grade = toString (get_grade (compute_score
        ⟨sampleRaw.raw_metrics.dom_elements, sampleRaw.raw_metrics.requests,
          sidecar_size_kb sampleRaw.raw_metrics.total_transfer_size⟩)) ∧
      r.ecoindex.ghg = round2 (compute_ghg (compute_score
        ⟨sampleRaw.raw_metrics.dom_elements, sampleRaw.raw_metrics.requests,
          sidecar_size_kb sampleRaw.raw_metrics.total_transfer_size⟩)) ∧
      r.ecoindex.water = round2 (compute_water (compute_score
        ⟨sampleRaw.raw_metrics.dom_elements, sampleRaw.raw_metrics.requests,
          sidecar_size_kb sampleRaw.raw_metrics.total_transfer_size⟩)) ∧
      r.ecoindex.size_kb =
        round2 (sidecar_size_kb sampleRaw.raw_metrics.total_transfer_size) ∧
      r.ecoindex.dom_elements = sampleRaw.raw_metrics.dom_elements ∧
      r.ecoindex.requests = sampleRaw.raw_metrics.requests ∧
      sidecar_size_kb sampleRaw.raw_metrics.total_transfer_size =
        (sampleRaw.raw_metrics.total_transfer_size : ℚ) / 1000 :=
  C5_success_scores_computed_locally sampleSerde "now" 7
    [.Stdout "\x7b\x7d", .Terminated (some 0)] sampleRaw "\x7b\x7d"
    (by decide) (by decide) (by decide)

/-- C6: an embedded error payload surfaces as `AnalysisFailed` both when the
exit code is nonzero (stdout parsing as the error shape) and when the exit
code is 0 (extracted JSON parsing as the error shape, never a success
result); a nonzero exit whose stdout does not parse as the error shape
surfaces as `ProcessFailed` with the stderr+stdout snapshot. -/
theorem C6_failure_dispatch (serde : SerdeJson) (now : String) (pid : ℕ)
    (events : List CommandEvent) :
    (∀ er : SidecarErrorResponse,
      (collectEvents events "" "").2.2 ≠ some 0 →
      serde.error_response_from_str (collectEvents events "" "").1 =
        some er →
      (run_lighthouse_analysis serde now pid events).1 =
        .error (.AnalysisFailed er.code er.message)) ∧
    ((collectEvents events "" "").2.2 ≠ some 0 →
      serde.error_response_from_str (collectEvents events "" "").1 = none →
      (run_lighthouse_analysis serde now pid events).1 =
        .error (.ProcessFailed ((collectEvents events "" "").2.2.getD (-1))
          ("stderr: " ++ (collectEvents events "" "").2.1 ++ ", stdout: " ++
            (collectEvents events "" "").1))) ∧
    (∀ (json_str : String) (er : SidecarErrorResponse),
      (collectEvents events "" "").2.2 = some 0 →
      extract_json (collectEvents events "" "").1 = some json_str →
      serde.sidecar_output_from_str json_str = some (.Error er) →
      (run_lighthouse_analysis serde now pid events).1 =
        .error (.AnalysisFailed er.code er.message)) := by
  refine ⟨?_, ?_, ?_⟩
  · intro er hcode hparse
    simp only [run_lighthouse_analysis, hparse]
    simp [hcode]
  · intro hcode hparse
    simp only [run_lighthouse_analysis, hparse]
    simp [hcode]
  · intro json_str er hcode hextract hparse
    simp only [run_lighthouse_analysis, hcode, hextract, hparse]
    simp

/-- Witness for C6: exit code 0 with an embedded error-shaped object is
surfaced as `AnalysisFailed`, not as a success. -/
theorem C6_failure_dispatch_witness :
    (run_lighthouse_analysis sampleSerde "now" 7
        [.Stdout "\x7bERR\x7d", .Terminated (some 0)]).1 =
      .error (.AnalysisFailed "E_EMBEDDED" "embedded failure") :=
  (C6_failure_dispatch sampleSerde "now" 7
      [.Stdout "\x7bERR\x7d", .Terminated (some 0)]).2.2 "\x7bERR\x7d"
    ⟨true, "E_EMBEDDED", "embedded failure", none⟩
    (by decide) (by decide) (by decide)

/-- C7: in every modelled run (the phase from the spawn onward), the
`AnalysisState.current_pid` slot is `none` when `run_lighthouse_analysis`
returns — the clear happens right after the event loop, before any of the
subsequent failure returns. -/
theorem C7_pid_slot_cleared (serde : SerdeJson) (now : String) (pid : ℕ)
    (events : List CommandEvent) :
    (run_lighthouse_analysis serde now pid events).2 = none := rfl

/-! ## Fast-path metrics collector (src-tauri/src/browser/collector.rs) -/

/-- Browser error taxonomy (src-tauri/src/errors/browser.rs). -/
inductive BrowserError where
  | NotFound (msg : String)
  | LaunchFailed (msg : String)
  | PageCreationFailed (msg : String)
  | NavigationFailed (msg : String)
  | NavigationTimeout (ms : ℕ)
  | PageLoadFailed (msg : String)
  | CdpError (msg : String)
  | DevToolsError (msg : String)
  | JavaScriptError (msg : String)
  | InvalidUrl (msg : String)
  deriving DecidableEq

/-- Resource-affecting actions performed by `MetricsCollector::collect`, in
program order: spawning the two background counter tasks
(`tokio::spawn`), aborting them (`JoinHandle::abort`), and closing the page
(`page.close()`). -/
inductive CollectAction where
  | spawn_req_task
  | spawn_size_task
  | abort_req_task
  | abort_size_task
  | close_page
  deriving DecidableEq

/-- Outcomes of the external CDP/tokio calls made by one `collect` run: each
fallible await is an oracle result, and `request_count` / `network_bytes` are
the final values of the two atomic counters as read at teardown. -/
structure CollectEnv where
  new_page : Except String Unit
  network_enable : Except String Unit
  request_listener : Except String Unit
  finished_listener : Except String Unit
  goto : Except String Unit
  scroll_eval : Except String Unit
  dom_count_eval : Except String ℕ
  html_size_eval : Except String ℕ
  request_count : ℕ
  network_bytes : ℕ

/-- Model of `MetricsCollector::collect`: the result, paired with the trace
of resource actions actually executed on that control path.  Every `?` early
return in the source leaves the function before the abort/close statements,
which is exactly what the traces record. -/
def collect (env : CollectEnv) :
    Except BrowserError PageMetrics × List CollectAction :=
  match env.new_page with
  | .error e => (.error (.PageCreationFailed e), [])
  | .ok _ =>
  match env.network_enable with
  | .error e => (.error (.CdpError e), [])
  | .ok _ =>
  match env.request_listener with
  | .error e => (.error (.CdpError e), [])
  | .ok _ =>
  match env.finished_listener with
  | .error e => (.error (.CdpError e), [])
  | .ok _ =>
  -- the two background counter tasks are spawned here
  let trace0 : List CollectAction := [.spawn_req_task, .spawn_size_task]
  match env.goto with
  | .error e => (.error (.NavigationFailed e), trace0)
  | .ok _ =>
  -- sleep(3s); scroll_to_bottom; sleep(3s)
  match env.scroll_eval with
  | .error e => (.error (.JavaScriptError e), trace0)
  | .ok _ =>
  match env.dom_count_eval with
  | .error e => (.error (.JavaScriptError e), trace0)
  | .ok dom_count =>
  match env.html_size_eval with
  | .error e => (.error (.JavaScriptError e), trace0)
  | .ok html_size =>
  -- req_handle.abort(); size_handle.abort()
  let trace1 := trace0 ++ [.abort_req_task, .abort_size_task]
  let requests := env.request_count
  let size_bytes := env.network_bytes + html_size
  let size_kb := (size_bytes : ℚ) / 1024
  -- let _ = page.close().await
  let trace2 := trace1 ++ [.close_page]
  (.ok ⟨dom_count, requests, size_kb⟩, trace2)

/-- A run whose navigation fails after both counter tasks were spawned. -/
def navFailEnv : CollectEnv where
  new_page := .ok ()
  network_enable := .ok ()
  request_listener := .ok ()
  finished_listener := .ok ()
  goto := .error "net::ERR_NAME_NOT_RESOLVED"
  scroll_eval := .ok ()
  dom_count_eval := .ok 100
  html_size_eval := .ok 1000
  request_count := 3
  network_bytes := 5000

/-- A fully successful run. -/
def successEnv : CollectEnv where
  new_page := .ok ()
  network_enable := .ok ()
  request_listener := .ok ()
  finished_listener := .ok ()
  goto := .ok ()
  scroll_eval := .ok ()
  dom_count_eval := .ok 100
  html_size_eval := .ok 1000
  request_count := 10
  network_bytes := 101400

/-! ## Claim theorems for the collector -/

/-- Counterexample to C8: when navigation fails, `collect` returns after the
two counter tasks were spawned but without aborting either of them and
without closing the page — the claimed every-exit-path cleanup does not
happen on this error path. -/
theorem C8_counterexample_nav_failure_skips_cleanup :
    (collect navFailEnv).1 =
      .error (.NavigationFailed "net::ERR_NAME_NOT_RESOLVED") ∧
    CollectAction.spawn_req_task ∈ (collect navFailEnv).2 ∧
    CollectAction.spawn_size_task ∈ (collect navFailEnv).2 ∧
    CollectAction.abort_req_task ∉ (collect navFailEnv).2 ∧
    CollectAction.abort_size_task ∉ (collect navFailEnv).2 ∧
    CollectAction.close_page ∉ (collect navFailEnv).2 := by
  refine ⟨rfl, ?_, ?_, ?_, ?_, ?_⟩ <;> decide

/-- C8 (amended): the explicit abort of both counter tasks and the explicit
page close happen exactly on the success path of `collect`; every error
return leaves the function without any abort or close action. -/
theorem C8_cleanup_on_success_path_only (env : CollectEnv) :
    ((∃ pm, (collect env).1 = .ok pm) →
      (collect env).2 = [.spawn_req_task, .spawn_size_task, .abort_req_task,
        .abort_size_task, .close_page]) ∧
    (∀ e, (collect env).1 = .error e →
      CollectAction.abort_req_task ∉ (collect env).2 ∧
      CollectAction.abort_size_task ∉ (collect env).2 ∧
      CollectAction.close_page ∉ (collect env).2) := by
  obtain ⟨np, ne, rl, fl, gt, sc, dc, hs, rc, nb⟩ := env
  cases np <;> cases ne <;> cases rl <;> cases fl <;> cases gt <;>
    cases sc <;> cases dc <;> cases hs <;> simp [collect]

/-- Witness for C8 (amended): on a successful run the full
spawn-abort-close trace is produced. -/
theorem C8_cleanup_on_success_path_only_witness :
    (collect successEnv).2 = [.spawn_req_task, .spawn_size_task,
      .abort_req_task, .abort_size_task, .close_page] :=
  (C8_cleanup_on_success_path_only successEnv).1
    ⟨⟨100, 10, ((102400 : ℕ) : ℚ) / 1024⟩, rfl⟩

/-- C10: the fast path computes `size_kb` as
`(network bytes + HTML byte size) / 1024`, while the sidecar path divides by
1000; on the same raw byte count the two conventions yield different
scores. -/
theorem C10_fast_path_divides_by_1024 :
    (∀ (env : CollectEnv) (dom_count html_size : ℕ),
      env.new_page = .ok () → env.network_enable = .ok () →
      env.request_listener = .ok () → env.finished_listener = .ok () →
      env.goto = .ok () → env.scroll_eval = .ok () →
      env.dom_count_eval = .ok dom_count →
      env.html_size_eval = .ok html_size →
      (collect env).1 = .ok ⟨dom_count, env.request_count,
        ((env.network_bytes + html_size : ℕ) : ℚ) / 1024⟩) ∧
    (∀ bytes : ℕ, sidecar_size_kb bytes = (bytes : ℚ) / 1000) ∧
    compute_score ⟨0, 0, ((1000000 : ℕ) : ℚ) / 1024⟩ ≠
      compute_score ⟨0, 0, sidecar_size_kb 1000000⟩ := by
  refine ⟨?_, fun _ => rfl, ?_⟩
  · intro env dom_count html_size h1 h2 h3 h4 h5 h6 h7 h8
    simp [collect, h1, h2, h3, h4, h5, h6, h7, h8]
  · norm_num [compute_score, get_quantile_position, quantileScan, mulAdd,
      rustClamp, sidecar_size_kb, DOM_QUANTILES, REQUEST_QUANTILES,
      SIZE_QUANTILES]

/-- Witness for C10: a concrete successful run produces
`size_kb = (101400 + 1000) / 1024`. -/
theorem C10_fast_path_divides_by_1024_witness :
    (collect successEnv).1 =
      .ok ⟨100, 10, ((101400 + 1000 : ℕ) : ℚ) / 1024⟩ :=
  C10_fast_path_divides_by_1024.1 successEnv 100 1000
    rfl rfl rfl rfl rfl rfl rfl rfl

end EcoRs
